import Mathlib

set_option maxRecDepth 4096

/-!
Verification development for the fritz-homeautomation repository
(fritzapi crate: `api.rs`, `devices/mod.rs`).

Modelling conventions:
* Rust machine integers are modelled as `Nat` (with explicit `% 2^32`
  masking inside the MD5 kernel, where 32-bit wrap-around matters).
* Rust `f32` values are modelled as exact rationals `ℚ`; the scaling
  operations (`* 0.001`, `* 0.1`) become exact rational multiplications.
* The blocking HTTP transport and the XML collaborator are modelled as
  explicit function parameters (`fetch` / `send`), and the effect of
  issuing a request is recorded as an explicit trace of URLs.
* Fallible Rust code returning `Result<T, FritzError>` is modelled with
  `Except FritzError T`.
-/

namespace Fritz

/-! ### ChallengeResponseSolver (`api.rs`, `request_response`) -/

/-- Mask a natural number to 32 bits, the wrap-around of Rust `u32`
arithmetic inside the MD5 computation. -/
def mask32 (x : Nat) : Nat := x % 4294967296

/-- The regex `[^\x00-\x7F]` of `request_response` matches every char whose
code point is outside `0x00–0x7F`; `replace_all` replaces each match with
`"."`. -/
def replaceNonAscii (s : String) : String :=
  String.mk (s.data.map (fun c => if c.toNat ≥ 0x80 then '.' else c))

/-- One scalar value encoded as UTF-16 code units, as Rust
`str::encode_utf16` produces them (surrogate pair above `0xFFFF`). -/
def encodeUtf16Char (c : Char) : List Nat :=
  let v := c.toNat
  if v < 0x10000 then [v]
  else
    let u := v - 0x10000
    [0xD800 + u / 0x400, 0xDC00 + u % 0x400]

/-- `hash_input.encode_utf16().flat_map(|utf16| utf16.to_le_bytes())`:
UTF-16 code units, each emitted as two little-endian bytes. -/
def utf16leBytes (s : String) : List Nat :=
  ((s.data.map encodeUtf16Char).flatten.map (fun u => [u % 256, u / 256])).flatten

/-- The 64 MD5 sine-derived round constants (RFC 1321 table T). -/
def md5K : List Nat :=
  [0xd76aa478, 0xe8c7b756, 0x242070db, 0xc1bdceee,
   0xf57c0faf, 0x4787c62a, 0xa8304613, 0xfd469501,
   0x698098d8, 0x8b44f7af, 0xffff5bb1, 0x895cd7be,
   0x6b901122, 0xfd987193, 0xa679438e, 0x49b40821,
   0xf61e2562, 0xc040b340, 0x265e5a51, 0xe9b6c7aa,
   0xd62f105d, 0x02441453, 0xd8a1e681, 0xe7d3fbc8,
   0x21e1cde6, 0xc33707d6, 0xf4d50d87, 0x455a14ed,
   0xa9e3e905, 0xfcefa3f8, 0x676f02d9, 0x8d2a4c8a,
   0xfffa3942, 0x8771f681, 0x6d9d6122, 0xfde5380c,
   0xa4beea44, 0x4bdecfa9, 0xf6bb4b60, 0xbebfbc70,
   0x289b7ec6, 0xeaa127fa, 0xd4ef3085, 0x04881d05,
   0xd9d4d039, 0xe6db99e5, 0x1fa27cf8, 0xc4ac5665,
   0xf4292244, 0x432aff97, 0xab9423a7, 0xfc93a039,
   0x655b59c3, 0x8f0ccc92, 0xffeff47d, 0x85845dd1,
   0x6fa87e4f, 0xfe2ce6e0, 0xa3014314, 0x4e0811a1,
   0xf7537e82, 0xbd3af235, 0x2ad7d2bb, 0xeb86d391]

/-- The 64 MD5 per-round left-rotation amounts. -/
def md5S : List Nat :=
  [7, 12, 17, 22, 7, 12, 17, 22, 7, 12, 17, 22, 7, 12, 17, 22,
   5, 9, 14, 20, 5, 9, 14, 20, 5, 9, 14, 20, 5, 9, 14, 20,
   4, 11, 16, 23, 4, 11, 16, 23, 4, 11, 16, 23, 4, 11, 16, 23,
   6, 10, 15, 21, 6, 10, 15, 21, 6, 10, 15, 21, 6, 10, 15, 21]

/-- 32-bit left rotation. -/
def rotl32 (x s : Nat) : Nat :=
  mask32 (Nat.lor (Nat.shiftLeft x s) (Nat.shiftRight x (32 - s)))

/-- 32-bit bitwise complement (operands are already `< 2^32`). -/
def not32 (x : Nat) : Nat := Nat.xor x 0xffffffff

/-- Little-endian word `g` of a 64-byte block. -/
def md5Word (block : List Nat) (g : Nat) : Nat :=
  block.getD (4 * g) 0 + 256 * block.getD (4 * g + 1) 0 +
    65536 * block.getD (4 * g + 2) 0 + 16777216 * block.getD (4 * g + 3) 0

/-- One MD5 round `i` on state `(a, b, c, d)` with message schedule `M`. -/
def md5Round (M : Nat → Nat) (st : Nat × Nat × Nat × Nat) (i : Nat) :
    Nat × Nat × Nat × Nat :=
  let (a, b, c, d) := st
  let fg : Nat × Nat :=
    if i < 16 then (Nat.lor (Nat.land b c) (Nat.land (not32 b) d), i)
    else if i < 32 then (Nat.lor (Nat.land d b) (Nat.land (not32 d) c), (5 * i + 1) % 16)
    else if i < 48 then (Nat.xor (Nat.xor b c) d, (3 * i + 5) % 16)
    else (Nat.xor c (Nat.lor b (not32 d)), (7 * i) % 16)
  let f := mask32 (fg.1 + a + md5K.getD i 0 + M fg.2)
  (d, mask32 (b + rotl32 f (md5S.getD i 0)), b, c)

/-- Process one 64-byte block, folding the 64 rounds and adding the
result back into the running state modulo `2^32`. -/
def md5Block (st : Nat × Nat × Nat × Nat) (block : List Nat) :
    Nat × Nat × Nat × Nat :=
  let r := (List.range 64).foldl (md5Round (md5Word block)) st
  (mask32 (st.1 + r.1), mask32 (st.2.1 + r.2.1),
   mask32 (st.2.2.1 + r.2.2.1), mask32 (st.2.2.2 + r.2.2.2))

/-- Split a byte list into 64-byte chunks; the fuel argument (instantiated
with the list length) keeps the recursion structural. -/
def toBlocks : Nat → List Nat → List (List Nat)
  | 0, _ => []
  | _, [] => []
  | fuel + 1, l => l.take 64 :: toBlocks fuel (l.drop 64)

/-- MD5 padding: `0x80`, zeros up to 56 mod 64, then the bit length as
eight little-endian bytes. -/
def md5Pad (bytes : List Nat) : List Nat :=
  let len := bytes.length
  let zeros := (120 - (len + 1) % 64) % 64
  let bitLen := 8 * len % 18446744073709551616
  bytes ++ 0x80 :: List.replicate zeros 0 ++
    (List.range 8).map (fun i => bitLen / 256 ^ i % 256)

/-- Four little-endian bytes of a 32-bit word. -/
def leBytes (x : Nat) : List Nat :=
  [x % 256, x / 256 % 256, x / 65536 % 256, x / 16777216 % 256]

/-- MD5 digest of a byte sequence, as the 16 digest bytes. -/
def md5 (bytes : List Nat) : List Nat :=
  let padded := md5Pad bytes
  let r := (toBlocks padded.length padded).foldl md5Block
    (0x67452301, 0xefcdab89, 0x98badcfe, 0x10325476)
  leBytes r.1 ++ leBytes r.2.1 ++ leBytes r.2.2.1 ++ leBytes r.2.2.2

/-- One lowercase hexadecimal digit. -/
def hexDigit (n : Nat) : Char :=
  if n < 10 then Char.ofNat (48 + n) else Char.ofNat (87 + n)

/-- Bytes rendered as lowercase hex, two digits per byte — the effect of
Rust `format!("{:032x}", digest)` on the 16 MD5 digest bytes. -/
def toHex (bytes : List Nat) : String :=
  String.mk ((bytes.map (fun b => [hexDigit (b / 16), hexDigit (b % 16)])).flatten)

/-- `request_response` from `api.rs`: sanitize the password to ASCII,
concatenate `challenge ++ "-" ++ password`, encode as UTF-16LE, MD5, and
produce `challenge ++ "-" ++ hex digest`. -/
def request_response (password challenge : String) : String :=
  let clean_password := replaceNonAscii password
  let hash_input := challenge ++ "-" ++ clean_password
  let bytes := utf16leBytes hash_input
  let digest := md5 bytes
  challenge ++ "-" ++ toHex digest

/-! ### Error type and session data -/

/-- Modelled from the spec: the error enumeration of `error.rs` (not part of
the analysed sources); §7 names the kinds `TransportError`, `LoginError`
(carrying a message, as the `FritzError::LoginError(String)` constructor used
in `api.rs` shows) and `ParseError`. -/
inductive FritzError where
  | transportError (msg : String)
  | loginError (msg : String)
  | parseError (msg : String)
deriving DecidableEq, Repr

/-- Modelled from the spec: the parsed session-info record of `fritz_xml`
(§6: `{challenge: string, session_id: 16-hex-digit string}`); field names
follow their uses `info.challenge` / `info.sid` in `api.rs`. -/
structure SessionInfo where
  challenge : String
  sid : String
deriving DecidableEq, Repr

/-- `const DEFAULT_SID: &str = "0000000000000000"` — the sentinel session id. -/
def DEFAULT_SID : String := "0000000000000000"

/-- `struct Token { sid: String, host: String }` from `api.rs`. -/
structure Token where
  sid : String
  host : String
deriving DecidableEq, Repr

/-! ### SessionManager (`api.rs`, `get_token`)

The composite effect `GET url → error_for_status → text → parse_session_info`
is modelled by one environment function `fetch : String → Except FritzError
SessionInfo`.  The effect of issuing a GET is made observable by also
returning the list of URLs requested, in order. -/

/-- `get_token` from `api.rs`, with the HTTP+XML pipeline abstracted as
`fetch`.  Returns the result together with the trace of requested URLs. -/
def get_token (fetch : String → Except FritzError SessionInfo)
    (host user password : String) : Except FritzError Token × List String :=
  let url := "http://" ++ host ++ "/login_sid.lua"
  match fetch url with
  | .error e => (.error e, [url])
  | .ok info =>
    if DEFAULT_SID ≠ info.sid then
      (.ok { sid := info.sid, host := host }, [url])
    else
      let response := request_response password info.challenge
      let url2 := "http://" ++ host ++ "/login_sid.lua?username=" ++ user ++
        "&response=" ++ response
      match fetch url2 with
      | .error e => (.error e, [url, url2])
      | .ok info2 =>
        if DEFAULT_SID = info2.sid then
          (.error (.loginError
            "login error - sid is still the default after login attempt"),
            [url, url2])
        else
          (.ok { sid := info2.sid, host := host }, [url, url2])

/-! ### CommandDispatcher (`api.rs`, `request`) -/

/-- `enum Commands` from `api.rs`. -/
inductive Commands where
  | GetDeviceListInfos
  | GetBasicDeviceStats
  | SetSwitchOff
  | SetSwitchOn
  | SetSwitchToggle
deriving DecidableEq, Repr

/-- The fixed protocol keyword each command maps to (the `match cmd` of
`request`). -/
def Commands.keyword : Commands → String
  | .GetDeviceListInfos => "getdevicelistinfos"
  | .GetBasicDeviceStats => "getbasicdevicestats"
  | .SetSwitchOff => "setswitchoff"
  | .SetSwitchOn => "setswitchon"
  | .SetSwitchToggle => "setswitchtoggle"

/-- The outbound GET built by `request`: URL plus query parameters. -/
structure HttpRequest where
  url : String
  query : List (String × String)
deriving DecidableEq, Repr

/-- A completed HTTP exchange as `request` observes it: the status code of
the response and the outcome of reading its body (`response.text()?` may
itself fail). -/
structure HttpResponse where
  status : Nat
  text : Except FritzError String

/-- `request` from `api.rs`, with `client.send()` abstracted as `send`.
It builds the request, sends it, logs the status (a pure model has no log
side effect) and returns `Ok(response.text()?)`; the status code is never
inspected beyond the log line. -/
def request (send : HttpRequest → Except FritzError HttpResponse)
    (cmd : Commands) (token : Token) (ain : Option String) :
    Except FritzError String :=
  let url := "http://" ++ token.host ++ "/webservices/homeautoswitch.lua"
  let query := [("switchcmd", cmd.keyword), ("sid", token.sid)] ++
    (match ain with
     | some a => [("ain", a)]
     | none => [])
  match send { url := url, query := query } with
  | .error e => .error e
  | .ok response => response.text

/-! ### Raw device records (`fritz_xml` shapes)

Modelled from the spec (§3 RawDeviceRecord) and the field uses in
`devices/mod.rs`; the XML structs themselves are not part of the analysed
sources. -/

/-- Modelled from the spec: the optional switch sub-record (`xml::Switch`),
carrying the on/off state. -/
structure Switch where
  state : Bool
deriving DecidableEq, Repr

/-- Modelled from the spec: the power-meter sub-record (`xml::PowerMeter`):
energy in watt-hours, power in milliwatts, voltage in millivolts, all
integers. -/
structure PowerMeter where
  energy : Nat
  power : Nat
  voltage : Nat
deriving DecidableEq, Repr

/-- Modelled from the spec: the temperature sub-record (`xml::Temperature`)
carrying the deci-unit reading as a string that is parsed later. -/
structure Temperature where
  celsius : String
deriving DecidableEq, Repr

/-- Modelled from the spec: the alert sub-record (`xml::Alert`) with boolean
state and last-change epoch timestamp, as constructed in
`last_alert_change_epoch`. -/
structure Alert where
  state : Bool
  lastalertchgtimestamp : Nat
deriving DecidableEq, Repr

/-- Modelled from the spec: the raw device record (`xml::Device`):
identifier, product name, friendly name and the four optional sub-records. -/
structure Device where
  identifier : String
  productname : String
  name : String
  switch : Option Switch
  powermeter : Option PowerMeter
  temperature : Option Temperature
  alert : Option Alert
deriving DecidableEq, Repr

/-! ### Device model (`devices/mod.rs`)

Rust `f32` telemetry fields are modelled as exact rationals; Rust's
`celsius.parse::<f32>()` (standard-library parser, external to the analysed
sources) is abstracted as a parameter `parse : String → Option ℚ`. -/

/-- `struct FritzDect2XX` (`devices/fritz_dect_2xx.rs`), fields as
constructed in `AVMDevice::list`. -/
structure FritzDect2XX where
  identifier : String
  productname : String
  name : String
  «on» : Bool
  voltage : ℚ
  watts : ℚ
  energy_in_watt_h : Nat
  celsius : ℚ
deriving DecidableEq, Repr

/-- `enum AVMDevice` from `devices/mod.rs`. -/
inductive AVMDevice where
  | FritzDect2XX (dev : Fritz.FritzDect2XX)
  | Other (dev : Device)
deriving DecidableEq, Repr

/-- Character-list version of Rust `str::starts_with`: the second list is a
prefix of the first. -/
def dataStartsWith : List Char → List Char → Bool
  | _, [] => true
  | [], _ :: _ => false
  | c :: cs, p :: ps => (c = p) && dataStartsWith cs ps

/-- Rust `str::starts_with(&str)` on the underlying character sequences. -/
def strStartsWith (s pat : String) : Bool := dataStartsWith s.data pat.data

/-- The per-record classification arm of `AVMDevice::list`: the match
pattern requires `powermeter`, `temperature` and `alert` to be present (the
`switch` requirement is commented out in the source) plus the guard
`productname.starts_with("FRITZ!DECT 2")`; everything else falls to
`AVMDevice::Other(dev)`.  `state` in the source pattern is bound by the
`alert` sub-pattern, so `on` is built from the alert's state flag. -/
def classify (parse : String → Option ℚ) (dev : Device) : AVMDevice :=
  match dev.powermeter, dev.temperature, dev.alert with
  | some pm, some temp, some al =>
    if strStartsWith dev.productname "FRITZ!DECT 2" then
      .FritzDect2XX
        { identifier := dev.identifier
          productname := dev.productname
          name := dev.name
          «on» := al.state
          voltage := (pm.voltage : ℚ) * (1 / 1000)
          watts := (pm.power : ℚ) * (1 / 1000)
          energy_in_watt_h := pm.energy
          celsius := ((parse temp.celsius).getD 0) * (1 / 10) }
    else .Other dev
  | _, _, _ => .Other dev

/-- `AVMDevice::list`, over the outcome of `api::device_infos` (dispatch of
the list command plus XML parse, abstracted as the `infos` argument): `?`
propagates the error, otherwise each record is classified in order. -/
def AVMDevice.list (parse : String → Option ℚ)
    (infos : Except FritzError (List Device)) :
    Except FritzError (List AVMDevice) :=
  match infos with
  | .error e => .error e
  | .ok devices => .ok (devices.map (classify parse))

/-- `AVMDevice::id`. -/
def AVMDevice.id : AVMDevice → String
  | .FritzDect2XX dev => dev.identifier
  | .Other dev => dev.identifier

/-- `AVMDevice::name`. -/
def AVMDevice.name : AVMDevice → String
  | .FritzDect2XX dev => dev.name
  | .Other dev => dev.name

/-- `AVMDevice::productname`. -/
def AVMDevice.productname : AVMDevice → String
  | .FritzDect2XX dev => dev.productname
  | .Other dev => dev.productname

/-- `AVMDevice::is_on`. -/
def AVMDevice.is_on : AVMDevice → Bool
  | .FritzDect2XX dev => dev.«on»
  | .Other _ => false

/-- `AVMDevice::is_alert`: constant `false` on the `FritzDect2XX` arm;
`alert.is_some() && alert.unwrap().state` on the `Other` arm. -/
def AVMDevice.is_alert : AVMDevice → Bool
  | .FritzDect2XX _ => false
  | .Other dev =>
    match dev.alert with
    | some al => al.state
    | none => false

/-- `AVMDevice::last_alert_change_epoch`: constant `0` on the
`FritzDect2XX` arm; `alert.unwrap_or(default).lastalertchgtimestamp` on the
`Other` arm. -/
def AVMDevice.last_alert_change_epoch : AVMDevice → Nat
  | .FritzDect2XX _ => 0
  | .Other dev =>
    (dev.alert.getD { state := false, lastalertchgtimestamp := 0 }).lastalertchgtimestamp

/-- `AVMDevice::turn_on`: dispatches `SetSwitchOn` for this device's id and
discards the body (`Ok(())`).  The receiver is threaded through explicitly
(`&mut self` in Rust); the body never writes a field, so the same device
value is returned. -/
def AVMDevice.turn_on (send : HttpRequest → Except FritzError HttpResponse)
    (dev : AVMDevice) (token : Token) : AVMDevice × Except FritzError Unit :=
  match request send .SetSwitchOn token (some dev.id) with
  | .error e => (dev, .error e)
  | .ok _ => (dev, .ok ())

/-- `AVMDevice::turn_off`, analogous to `turn_on`. -/
def AVMDevice.turn_off (send : HttpRequest → Except FritzError HttpResponse)
    (dev : AVMDevice) (token : Token) : AVMDevice × Except FritzError Unit :=
  match request send .SetSwitchOff token (some dev.id) with
  | .error e => (dev, .error e)
  | .ok _ => (dev, .ok ())

/-- `AVMDevice::toggle`, analogous to `turn_on`. -/
def AVMDevice.toggle (send : HttpRequest → Except FritzError HttpResponse)
    (dev : AVMDevice) (token : Token) : AVMDevice × Except FritzError Unit :=
  match request send .SetSwitchToggle token (some dev.id) with
  | .error e => (dev, .error e)
  | .ok _ => (dev, .ok ())

/-! ### Concrete environments and records used in the theorems below -/

/-- A raw record of the plug family carrying power-meter, temperature and
alert sub-records but no switch sub-record. -/
def c1Device : Device :=
  { identifier := "11657 0272633", productname := "FRITZ!DECT 200",
    name := "plug", switch := none,
    powermeter := some { energy := 5, power := 2000, voltage := 230000 },
    temperature := some { celsius := "215" },
    alert := some { state := false, lastalertchgtimestamp := 0 } }

/-- A raw plug-family record whose alert sub-record is present with state
`true` and a nonzero last-change timestamp. -/
def c6Device : Device :=
  { identifier := "09995 0552489", productname := "FRITZ!DECT 200",
    name := "p", switch := some { state := true },
    powermeter := some { energy := 4, power := 3, voltage := 2 },
    temperature := some { celsius := "200" },
    alert := some { state := true, lastalertchgtimestamp := 7 } }

/-- A transport that delivers a non-success HTTP status with a readable
body. -/
def c3Send : HttpRequest → Except FritzError HttpResponse :=
  fun _ => .ok { status := 500, text := .ok "error-page" }

/-- The environment of the C4 witness: every session-info response carries
the sentinel session id. -/
def c4Fetch : String → Except FritzError SessionInfo :=
  fun _ => .ok { challenge := "c", sid := "0000000000000000" }

/-- The environment of the C5 witness: the first response already carries a
non-sentinel session id. -/
def c5Fetch : String → Except FritzError SessionInfo :=
  fun _ => .ok { challenge := "c", sid := "a1b2c3d4e5f67890" }

/-! ## Theorems -/

/-- Claim C2: the challenge-response computation applied to password
`"mühe"` and challenge `"foo"` returns exactly
`"foo-442e12bbceabd35c66964c913a316451"`. -/
theorem C2_request_response_test_vector :
    request_response "mühe" "foo" = "foo-442e12bbceabd35c66964c913a316451" := by
  decide

/-- Claim C1 counterexample: a record whose switch sub-record is absent but
whose power-meter, temperature and alert sub-records are present, with the
plug-family product name, still classifies as a `FritzDect2XX` plug —
contradicting the claim that all four sub-records must be simultaneously
present and that a record missing one classifies as unclassified. -/
theorem C1_counterexample :
    c1Device.switch = none ∧
    classify (fun _ => some 215) c1Device =
      .FritzDect2XX
        { identifier := "11657 0272633",
          productname := "FRITZ!DECT 200", name := "plug", «on» := false,
          voltage := 230, watts := 2, energy_in_watt_h := 5,
          celsius := (43 : ℚ) / 2 } := by
  have hs : strStartsWith "FRITZ!DECT 200" "FRITZ!DECT 2" = true := by decide
  refine ⟨rfl, ?_⟩
  simp only [classify, c1Device, hs, if_true]
  norm_num

/-- Claim C1 (amended): a record classifies as a `FritzDect2XX` plug if and
only if its product name starts with `"FRITZ!DECT 2"` and its power-meter,
temperature and alert sub-records are all present; the switch sub-record is
never consulted, and any record failing this rule classifies as
`AVMDevice.Other` carrying the original record. -/
theorem C1_classification_rule (parse : String → Option ℚ) (dev : Device) :
    ((∃ d, classify parse dev = .FritzDect2XX d) ↔
      (strStartsWith dev.productname "FRITZ!DECT 2" = true ∧
        dev.powermeter.isSome = true ∧ dev.temperature.isSome = true ∧
        dev.alert.isSome = true)) ∧
    (¬ (strStartsWith dev.productname "FRITZ!DECT 2" = true ∧
        dev.powermeter.isSome = true ∧ dev.temperature.isSome = true ∧
        dev.alert.isSome = true) →
      classify parse dev = .Other dev) := by
  obtain ⟨idr, pn, nm, sw, pmo, tmo, alo⟩ := dev
  by_cases hs : strStartsWith pn "FRITZ!DECT 2" = true <;>
    rcases pmo with _ | pm <;> rcases tmo with _ | tm <;> rcases alo with _ | al <;>
    simp [classify, hs]

/-- Claim C8: a record with product name `"FRITZ!DECT 200"` and all four
sub-records present classifies as a plug whose voltage is the raw millivolt
value times `0.001`, whose watts are the raw milliwatt value times `0.001`,
whose cumulative energy is the raw watt-hour integer unchanged, and whose
celsius is the parsed raw deci-unit value times `0.1`. -/
theorem C8_dect200_scaling (parse : String → Option ℚ)
    (idr nm cel : String) (sw : Switch) (energy power voltage : Nat)
    (al : Alert) (c : ℚ) (h : parse cel = some c) :
    classify parse
      { identifier := idr, productname := "FRITZ!DECT 200", name := nm,
        switch := some sw,
        powermeter := some { energy := energy, power := power, voltage := voltage },
        temperature := some { celsius := cel },
        alert := some al } =
      .FritzDect2XX
        { identifier := idr, productname := "FRITZ!DECT 200",
          name := nm, «on» := al.state,
          voltage := (voltage : ℚ) * (1 / 1000),
          watts := (power : ℚ) * (1 / 1000),
          energy_in_watt_h := energy,
          celsius := c * (1 / 10) } := by
  have hs : strStartsWith "FRITZ!DECT 200" "FRITZ!DECT 2" = true := by decide
  simp [classify, hs, h]

/-- Claim C8 witness: the theorem applied at a concrete record. -/
theorem C8_dect200_scaling_witness :
    (fun _ : String => some (215 : ℚ)) "21.5" = some 215 ∧
    classify (fun _ : String => some (215 : ℚ))
      { identifier := "0812", productname := "FRITZ!DECT 200", name := "p",
        switch := some { state := true },
        powermeter := some { energy := 5, power := 2000, voltage := 230000 },
        temperature := some { celsius := "21.5" },
        alert := some { state := false, lastalertchgtimestamp := 3 } } =
      .FritzDect2XX
        { identifier := "0812", productname := "FRITZ!DECT 200",
          name := "p", «on» := false,
          voltage := ((230000 : Nat) : ℚ) * (1 / 1000),
          watts := ((2000 : Nat) : ℚ) * (1 / 1000),
          energy_in_watt_h := 5,
          celsius := (215 : ℚ) * (1 / 10) } :=
  ⟨rfl, C8_dect200_scaling _ _ _ _ _ _ _ _ _ _ rfl⟩

/-- Claim C10: for every record meeting the code's plug classification rule
whose temperature string fails to parse, classification still succeeds and
the resulting plug's celsius value is exactly `0`. -/
theorem C10_unparsable_temperature (parse : String → Option ℚ)
    (idr pn nm cel : String) (swo : Option Switch) (pm : PowerMeter)
    (al : Alert)
    (hs : strStartsWith pn "FRITZ!DECT 2" = true)
    (hc : parse cel = none) :
    classify parse
      { identifier := idr, productname := pn, name := nm, switch := swo,
        powermeter := some pm, temperature := some { celsius := cel },
        alert := some al } =
      .FritzDect2XX
        { identifier := idr, productname := pn, name := nm,
          «on» := al.state,
          voltage := (pm.voltage : ℚ) * (1 / 1000),
          watts := (pm.power : ℚ) * (1 / 1000),
          energy_in_watt_h := pm.energy,
          celsius := 0 } := by
  simp [classify, hs, hc]

/-- Helper: whenever classification yields the `Other` variant, it carries
the original record unchanged. -/
theorem classify_other_inv (parse : String → Option ℚ) (dev d : Device)
    (h : classify parse dev = .Other d) : d = dev := by
  obtain ⟨idr, pn, nm, sw, pmo, tmo, alo⟩ := dev
  by_cases hs : strStartsWith pn "FRITZ!DECT 2" = true <;>
    rcases pmo with _ | pm <;> rcases tmo with _ | tm <;> rcases alo with _ | al <;>
    simp only [classify, hs, if_true, if_false, Bool.false_eq_true] at h <;>
    simp_all

/-- Claim C7: classification over a successfully fetched record sequence is
the per-record map (hence total, order-preserving and length-preserving),
and the `Other` variant round-trips the original record — in particular its
identifier, name, product name and alert sub-record — unchanged. -/
theorem C7_list_total_ordered (parse : String → Option ℚ)
    (devs : List Device) :
    AVMDevice.list parse (.ok devs) = .ok (devs.map (classify parse)) ∧
    (devs.map (classify parse)).length = devs.length ∧
    ∀ dev d, classify parse dev = .Other d →
      d.identifier = dev.identifier ∧ d.name = dev.name ∧
      d.productname = dev.productname ∧ d.alert = dev.alert := by
  refine ⟨rfl, List.length_map _ _, ?_⟩
  intro dev d h
  rw [classify_other_inv parse dev d h]
  exact ⟨rfl, rfl, rfl, rfl⟩

/-- Claim C6 counterexample: a record carrying an alert sub-record with
state `true` and last-change `7` classifies as a `FritzDect2XX` plug, yet
`is_alert` returns `false` and `last_alert_change_epoch` returns `0` on
that variant — the alert data is not surfaced uniformly over both
variants. -/
theorem C6_counterexample :
    c6Device.alert = some { state := true, lastalertchgtimestamp := 7 } ∧
    (classify (fun _ => some 20) c6Device).is_alert = false ∧
    (classify (fun _ => some 20) c6Device).last_alert_change_epoch = 0 :=
  ⟨rfl, rfl, rfl⟩

/-- Claim C6 (amended): on the `Other` variant, `is_alert` returns the
alert sub-record's state when present and `false` when absent, and
`last_alert_change_epoch` returns its last-change epoch when present and
`0` when absent; on the `FritzDect2XX` variant both accessors are the
constants `false` and `0`, regardless of the originating record's alert
sub-record. -/
theorem C6_alert_accessors (parse : String → Option ℚ) (dev : Device) :
    (∀ d, classify parse dev = .Other d →
      (AVMDevice.Other d).is_alert = (d.alert.map Alert.state).getD false ∧
      (AVMDevice.Other d).last_alert_change_epoch =
        (d.alert.map Alert.lastalertchgtimestamp).getD 0) ∧
    (∀ p, classify parse dev = .FritzDect2XX p →
      (AVMDevice.FritzDect2XX p).is_alert = false ∧
      (AVMDevice.FritzDect2XX p).last_alert_change_epoch = 0) := by
  constructor
  · rintro d -
    constructor
    · cases h : d.alert <;>
        simp [AVMDevice.is_alert, h]
    · cases h : d.alert <;>
        simp [AVMDevice.last_alert_change_epoch, h, Option.getD]
  · rintro p -
    exact ⟨rfl, rfl⟩

/-- Claim C9: the switch commands never write any field of the in-memory
device: the device value threaded through `turn_on`, `turn_off` and
`toggle` is returned unchanged whatever the dispatch outcome — in
particular `is_on` observed right after `turn_on` equals `is_on` observed
before. -/
theorem C9_switch_commands_frame
    (send : HttpRequest → Except FritzError HttpResponse)
    (dev : AVMDevice) (token : Token) :
    (AVMDevice.turn_on send dev token).1 = dev ∧
    (AVMDevice.turn_off send dev token).1 = dev ∧
    (AVMDevice.toggle send dev token).1 = dev ∧
    ((AVMDevice.turn_on send dev token).1).is_on = dev.is_on := by
  refine ⟨?_, ?_, ?_, ?_⟩ <;>
    simp only [AVMDevice.turn_on, AVMDevice.turn_off, AVMDevice.toggle] <;>
    split <;> rfl

/-- Claim C3 counterexample: a response with HTTP status `500` — not a
success status — whose body is readable is returned by the dispatcher as a
success value carrying the body, not as an error. -/
theorem C3_counterexample :
    ¬ (200 ≤ 500 ∧ 500 ≤ 299) ∧
    request c3Send .SetSwitchOn { sid := "0123456789abcdef", host := "fritz.box" }
      none = .ok "error-page" :=
  ⟨by omega, rfl⟩

/-- Claim C3 (amended): the dispatcher surfaces transport-level failures
(send failure, or failure reading the body) as errors unmodified, and for
every HTTP status — success or not — a readable body is returned as a
success value: the status code is only logged, never inspected. -/
theorem C3_dispatch_errors
    (cmd : Commands) (token : Token) (ain : Option String) (status : Nat)
    (body : String) (e : FritzError) :
    request (fun _ => .ok { status := status, text := .ok body }) cmd token ain =
      .ok body ∧
    request (fun _ => .error e) cmd token ain = .error e ∧
    request (fun _ => .ok { status := status, text := .error e }) cmd token ain =
      .error e :=
  ⟨rfl, rfl, rfl⟩

/-- Claim C4: once the handshake reaches its second session-info response,
authentication fails with `LoginError` exactly when that response still
carries the sentinel session id, and otherwise returns the session holding
that id and the given host. -/
theorem C4_login_sentinel (fetch : String → Except FritzError SessionInfo)
    (host user password : String) (info1 info2 : SessionInfo)
    (h1 : fetch ("http://" ++ host ++ "/login_sid.lua") = .ok info1)
    (hs : info1.sid = DEFAULT_SID)
    (h2 : fetch ("http://" ++ host ++ "/login_sid.lua?username=" ++ user ++
      "&response=" ++ request_response password info1.challenge) = .ok info2) :
    ((get_token fetch host user password).1 =
        .error (.loginError
          "login error - sid is still the default after login attempt") ↔
      info2.sid = DEFAULT_SID) ∧
    (info2.sid ≠ DEFAULT_SID →
      (get_token fetch host user password).1 =
        .ok { sid := info2.sid, host := host }) := by
  by_cases hd : DEFAULT_SID = info2.sid <;>
    simp [get_token, h1, hs, h2, hd, eq_comm]

/-- Claim C4 witness: the theorem applied to an environment whose second
response still carries the sentinel id. -/
theorem C4_login_sentinel_witness :
    c4Fetch ("http://" ++ "h" ++ "/login_sid.lua") =
      .ok { challenge := "c", sid := "0000000000000000" } ∧
    ({ challenge := "c", sid := "0000000000000000" } : SessionInfo).sid =
      DEFAULT_SID ∧
    ((get_token c4Fetch "h" "u" "p").1 =
        .error (.loginError
          "login error - sid is still the default after login attempt") ↔
      ({ challenge := "c", sid := "0000000000000000" } : SessionInfo).sid =
        DEFAULT_SID) :=
  ⟨rfl, rfl, (C4_login_sentinel c4Fetch "h" "u" "p" _ _ rfl rfl rfl).1⟩

/-- Claim C5: when the first session-info response already carries a
non-sentinel session id, `get_token` returns that session for every
username and password (the credentials are never consulted), and its
request trace holds exactly the one initial URL — no second request is
issued. -/
theorem C5_short_circuit (fetch : String → Except FritzError SessionInfo)
    (host : String) (info : SessionInfo)
    (h1 : fetch ("http://" ++ host ++ "/login_sid.lua") = .ok info)
    (hs : info.sid ≠ DEFAULT_SID) :
    ∀ user password,
      get_token fetch host user password =
        (.ok { sid := info.sid, host := host },
          ["http://" ++ host ++ "/login_sid.lua"]) := by
  intro user password
  simp [get_token, h1, Ne.symm hs]

/-- Claim C5 witness: the theorem applied to an environment with an
existing non-sentinel session. -/
theorem C5_short_circuit_witness :
    c5Fetch ("http://" ++ "h" ++ "/login_sid.lua") =
      .ok { challenge := "c", sid := "a1b2c3d4e5f67890" } ∧
    ({ challenge := "c", sid := "a1b2c3d4e5f67890" } : SessionInfo).sid ≠
      DEFAULT_SID ∧
    get_token c5Fetch "h" "u" "p" =
      (.ok { sid := "a1b2c3d4e5f67890", host := "h" },
        ["http://" ++ "h" ++ "/login_sid.lua"]) :=
  ⟨rfl, by decide, C5_short_circuit c5Fetch "h" _ rfl (by decide) "u" "p"⟩

/-- Claim C10 witness: the theorem applied at a concrete record whose
temperature string parses to nothing. -/
theorem C10_unparsable_temperature_witness :
    strStartsWith "FRITZ!DECT 210" "FRITZ!DECT 2" = true ∧
    (fun _ : String => (none : Option ℚ)) "garbage" = none ∧
    classify (fun _ : String => (none : Option ℚ))
      { identifier := "77", productname := "FRITZ!DECT 210", name := "q",
        switch := none,
        powermeter := some { energy := 1, power := 1, voltage := 1 },
        temperature := some { celsius := "garbage" },
        alert := some { state := true, lastalertchgtimestamp := 9 } } =
      .FritzDect2XX
        { identifier := "77", productname := "FRITZ!DECT 210",
          name := "q", «on» := true,
          voltage := ((1 : Nat) : ℚ) * (1 / 1000),
          watts := ((1 : Nat) : ℚ) * (1 / 1000),
          energy_in_watt_h := 1,
          celsius := 0 } :=
  ⟨by decide, rfl,
    C10_unparsable_temperature _ _ _ _ _ _ _ _ (by decide) rfl⟩

end Fritz
